import Mathlib

/-!
Shallow embedding of `src/worker.js` from the `movielist` repository: a
Cloudflare-worker request router that proxies TMDB metadata lookups and
synthesizes video-embed URLs. Query parameters are modelled as an ordered
association list (URLSearchParams.get returns the first occurrence), the
worker environment as a record of optional string bindings, JSON bodies as
an inductive value type, and the single outbound HTTP GET as an oracle
function from URL to an optional JSON value (`none` standing for any
network or parse failure).
-/

namespace MovieList

/-- JSON values, used for response bodies. -/
inductive JVal where
  | jnull : JVal
  | jbool : Bool → JVal
  | jstr : String → JVal
  | jnum : Int → JVal
  | jarr : List JVal → JVal
  | jobj : List (String × JVal) → JVal

/-- Worker environment bindings (secrets / configuration variables). -/
structure Env where
  TMDB_API_KEY : Option String
  VIDSRC_CC_URL : Option String
  VIDROCK_NET_URL : Option String
  VIDSRC_ME_URL : Option String
  VIDFAST_PRO_URL : Option String

/-- Query parameters of an inbound request, in order of appearance. -/
abbrev Params := List (String × String)

/-- An inbound HTTP request, reduced to the data the worker reads. -/
structure Request where
  method : String
  queryParams : Params

/-- An HTTP response: status, headers, and an optional JSON body. -/
structure Response where
  status : Nat
  headers : List (String × String)
  body : Option JVal

/-- `URLSearchParams.get`: first value bound to the key, if any. -/
def getParam (ps : Params) (k : String) : Option String :=
  (ps.find? (fun p => p.1 == k)).map (fun p => p.2)

/-- `URLSearchParams.has`: whether the key occurs at all. -/
def hasParam (ps : Params) (k : String) : Bool :=
  (ps.find? (fun p => p.1 == k)).isSome

/-- JavaScript truthiness of an optional string: `undefined`/`null` and the
empty string are falsy, every other string truthy. -/
def truthy : Option String → Bool
  | none => false
  | some s => !(s == "")

/-- JavaScript `x || d` for an optional string `x`: the default is taken
when `x` is absent or empty (falsy). -/
def orDefault (o : Option String) (d : String) : String :=
  match o with
  | none => d
  | some s => if s == "" then d else s

/-- JavaScript template interpolation of a possibly-null string
(`null` prints as `"null"`). -/
def jsTemplateStr (o : Option String) : String :=
  match o with
  | none => "null"
  | some s => s

/-- CORS headers attached to every response (worker.js lines 17-22). -/
def corsHeaders : List (String × String) :=
  [("Access-Control-Allow-Origin", "*"),
   ("Access-Control-Allow-Methods", "GET, HEAD, OPTIONS"),
   ("Access-Control-Allow-Headers", "Content-Type"),
   ("X-Content-Type-Options", "nosniff")]

/-- Headers used for JSON bodies: the CORS headers plus `Content-Type`. -/
def jsonHeaders : List (String × String) :=
  corsHeaders ++ [("Content-Type", "application/json")]

/-- `mediaType` (worker.js line 52): `"tv"` iff the `type` parameter equals
`"tv"`, else `"movie"`. -/
def mediaType (ps : Params) : String :=
  if getParam ps "type" == some "tv" then "tv" else "movie"

/-- The action classification of worker.js lines 55-63. -/
inductive Action where
  | details
  | credits
  | popular
  | search
  | findByImdbId
  | getExternalIds
  | embed
  | getProviders
  | error
deriving DecidableEq, Repr

/-- The if/else-if chain of worker.js lines 55-63, first match wins. -/
def classify (ps : Params) : Action :=
  if hasParam ps "details" then .details
  else if hasParam ps "credits" then .credits
  else if hasParam ps "popular" then .popular
  else if hasParam ps "query" then .search
  else if hasParam ps "imdb_id" && !(getParam ps "action" == some "embed") then .findByImdbId
  else if hasParam ps "tmdb_id" then .getExternalIds
  else if getParam ps "action" == some "embed" then .embed
  else if getParam ps "action" == some "getProviders" then .getProviders
  else .error

/-- The hardcoded video provider list literal (worker.js lines 44-49),
kept as JSON objects so the key names of the source literal are visible. -/
def videoProviderList : List JVal :=
  [.jobj [("name", .jstr "alpha"), ("domain", .jstr "vidsrc.cc"), ("sandbox", .jbool true)],
   .jobj [("name", .jstr "bravo"), ("domain", .jstr "vidrock.net"), ("sandbox", .jbool true)],
   .jobj [("name", .jstr "charlie"), ("domain", .jstr "vidsrc.me"), ("sandbox", .jbool true)],
   .jobj [("name", .jstr "delta"), ("domain", .jstr "vidfast.pro"), ("sandbox", .jbool true)]]

/-- Uppercase hexadecimal digit for `n < 16`. -/
def hexDigitChar (n : Nat) : Char :=
  if n < 10 then Char.ofNat (48 + n) else Char.ofNat (55 + n)

/-- UTF-8 byte sequence of a character, as natural numbers. -/
def utf8ByteList (c : Char) : List Nat :=
  let n := c.toNat
  if n < 128 then [n]
  else if n < 2048 then [192 + n / 64, 128 + n % 64]
  else if n < 65536 then [224 + n / 4096, 128 + (n / 64) % 64, 128 + n % 64]
  else [240 + n / 262144, 128 + (n / 4096) % 64, 128 + (n / 64) % 64, 128 + n % 64]

/-- Characters `encodeURIComponent` leaves unescaped: alphanumerics and
`- _ . ! ~ *` and the apostrophe (code 39) and parentheses. -/
def isUnescapedInURIComponent (c : Char) : Bool :=
  c.isAlphanum || c == '-' || c == '_' || c == '.' || c == '!' || c == '~' ||
    c == '*' || c.toNat == 39 || c == '(' || c == ')'

/-- Percent-encoding of one character, one `%XX` triple per UTF-8 byte. -/
def percentEncodeChar (c : Char) : String :=
  String.join ((utf8ByteList c).map
    (fun b => "%" ++ String.mk [hexDigitChar (b / 16), hexDigitChar (b % 16)]))

/-- JavaScript `encodeURIComponent`. -/
def encodeURIComponent (s : String) : String :=
  String.join (s.data.map
    (fun c => if isUnescapedInURIComponent c then String.mk [c] else percentEncodeChar c))

/-- The `providerConfigs` object of worker.js lines 132-137: base URL per
known provider domain, with the environment override applied. -/
def providerConfigs (env : Env) (provider : String) : Option String :=
  if provider == "vidsrc.cc" then some (orDefault env.VIDSRC_CC_URL "https://vidsrc.cc/v2/embed/")
  else if provider == "vidrock.net" then some (orDefault env.VIDROCK_NET_URL "https://vidrock.net/")
  else if provider == "vidsrc.me" then some (orDefault env.VIDSRC_ME_URL "https://vidsrc.me/embed/")
  else if provider == "vidfast.pro" then some (orDefault env.VIDFAST_PRO_URL "https://vidfast.pro/")
  else none

/-- `generateEmbedUrl` (worker.js lines 130-166). -/
def generateEmbedUrl (provider imdbId type : String) (env : Env) : Option String :=
  match providerConfigs env provider with
  | none => none
  | some baseUrl =>
    if baseUrl == "" then none
    else if provider == "vidsrc.cc" then
      some (if type == "tv" then baseUrl ++ "tv/" ++ imdbId else baseUrl ++ "movie/" ++ imdbId)
    else if provider == "vidrock.net" then
      some (if type == "tv" then baseUrl ++ "tv/" ++ imdbId else baseUrl ++ "movie/" ++ imdbId)
    else if provider == "vidsrc.me" then
      some (baseUrl ++ type ++ "/" ++ imdbId)
    else if provider == "vidfast.pro" then
      some (baseUrl ++ type ++ "/" ++ imdbId ++ "?autoPlay=true")
    else none

/-- The `page` local of the popular branch (worker.js line 73). -/
def popularPage (ps : Params) : String :=
  orDefault (getParam ps "page") "1"

/-- The `popularMediaType` local of the popular branch (worker.js line 74). -/
def popularMediaType (ps : Params) : String :=
  orDefault (getParam ps "media_type") "movie"

/-- The `tmdbApiUrl` set by the outbound cases of the switch
(worker.js lines 65-85); `""` for the cases that return directly,
mirroring the `let tmdbApiUrl = ''` initialisation. -/
def buildTmdbApiUrl (action : Action) (ps : Params) (apiKey : String) : String :=
  match action with
  | .details =>
      "https://api.themoviedb.org/3/" ++ mediaType ps ++ "/" ++ jsTemplateStr (getParam ps "details") ++
        "?api_key=" ++ apiKey ++ "&language=en-US"
  | .credits =>
      "https://api.themoviedb.org/3/" ++ mediaType ps ++ "/" ++ jsTemplateStr (getParam ps "credits") ++
        "/credits?api_key=" ++ apiKey ++ "&language=en-US"
  | .popular =>
      "https://api.themoviedb.org/3/" ++ popularMediaType ps ++ "/popular?api_key=" ++ apiKey ++
        "&language=en-US&page=" ++ popularPage ps
  | .search =>
      "https://api.themoviedb.org/3/search/multi?api_key=" ++ apiKey ++ "&query=" ++
        encodeURIComponent (jsTemplateStr (getParam ps "query")) ++ "&language=en-US&page=1"
  | .findByImdbId =>
      "https://api.themoviedb.org/3/find/" ++ jsTemplateStr (getParam ps "imdb_id") ++
        "?api_key=" ++ apiKey ++ "&external_source=imdb_id"
  | .getExternalIds =>
      "https://api.themoviedb.org/3/" ++ mediaType ps ++ "/" ++ jsTemplateStr (getParam ps "tmdb_id") ++
        "/external_ids?api_key=" ++ apiKey
  | _ => ""

/-- The 200 response carrying the provider list (worker.js line 98). -/
def providersResponse : Response :=
  { status := 200, headers := jsonHeaders,
    body := some (.jobj [("providers", .jarr videoProviderList)]) }

/-- The 502 upstream-failure response (worker.js lines 119-125). -/
def upstreamFailureResponse : Response :=
  { status := 502, headers := jsonHeaders,
    body := some (.jobj [("error", .jstr "Failed to fetch data from TMDB API.")]) }

/-- The whole `fetch` handler (worker.js lines 15-126). `fetchOracle`
models the single outbound `fetch` + `json()` step: `none` is any network
error or JSON parse failure on that URL. -/
def handleRequest (req : Request) (env : Env) (fetchOracle : String → Option JVal) : Response :=
  if req.method == "OPTIONS" then
    { status := 200, headers := corsHeaders, body := none }
  else if !(truthy env.TMDB_API_KEY) then
    { status := 500, headers := jsonHeaders,
      body := some (.jobj [("error", .jstr "Server configuration error: TMDB_API_KEY secret not set.")]) }
  else
    let apiKey := (env.TMDB_API_KEY).getD ""
    let ps := req.queryParams
    match classify ps with
    | .embed =>
        let provider := getParam ps "provider"
        let imdbId := getParam ps "imdb_id"
        if truthy provider && truthy imdbId then
          match generateEmbedUrl (provider.getD "") (imdbId.getD "") (mediaType ps) env with
          | some embedUrl =>
              { status := 200, headers := jsonHeaders,
                body := some (.jobj [("embedUrl", .jstr embedUrl)]) }
          | none =>
              { status := 400, headers := jsonHeaders,
                body := some (.jobj [("error", .jstr "Invalid provider or unable to generate embed URL.")]) }
        else
          providersResponse
    | .getProviders => providersResponse
    | .error =>
        { status := 400, headers := jsonHeaders,
          body := some (.jobj [("error", .jstr "Missing or invalid query parameters.")]) }
    | a =>
        let tmdbApiUrl := buildTmdbApiUrl a ps apiKey
        if tmdbApiUrl == "" then upstreamFailureResponse
        else
          match fetchOracle tmdbApiUrl with
          | some data => { status := 200, headers := jsonHeaders, body := some data }
          | none => upstreamFailureResponse

/-- An environment with nothing configured. -/
def emptyEnv : Env :=
  { TMDB_API_KEY := none, VIDSRC_CC_URL := none, VIDROCK_NET_URL := none,
    VIDSRC_ME_URL := none, VIDFAST_PRO_URL := none }

/-- An environment with only the TMDB API key configured. -/
def keyOnlyEnv : Env :=
  { emptyEnv with TMDB_API_KEY := some "k" }

/-- The trigger condition of each branch of the if/else-if chain of
worker.js lines 55-63 (`error` is the default, its trigger is trivially
true). -/
def trigger (ps : Params) : Action → Bool
  | .details => hasParam ps "details"
  | .credits => hasParam ps "credits"
  | .popular => hasParam ps "popular"
  | .search => hasParam ps "query"
  | .findByImdbId => hasParam ps "imdb_id" && !(getParam ps "action" == some "embed")
  | .getExternalIds => hasParam ps "tmdb_id"
  | .embed => getParam ps "action" == some "embed"
  | .getProviders => getParam ps "action" == some "getProviders"
  | .error => true

/-- Position of each action in the priority order of the chain. -/
def priorityOf : Action → Nat
  | .details => 0
  | .credits => 1
  | .popular => 2
  | .search => 3
  | .findByImdbId => 4
  | .getExternalIds => 5
  | .embed => 6
  | .getProviders => 7
  | .error => 8

/-- The six actions that lead to the outbound-fetch block. -/
def isOutboundAction : Action → Bool
  | .details => true
  | .credits => true
  | .popular => true
  | .search => true
  | .findByImdbId => true
  | .getExternalIds => true
  | .embed => false
  | .getProviders => false
  | .error => false

/-- Appending to a nonempty string on the left keeps it nonempty. -/
theorem append_ne_empty_left (a b : String) (h : a ≠ "") : a ++ b ≠ "" := by
  intro hab
  apply h
  have hd := congrArg String.data hab
  have hd' : a.data ++ b.data = ([] : List Char) := by
    cases a; cases b; exact hd
  have : a.data = [] := (List.append_eq_nil.mp hd').1
  cases a
  simp_all

/-- C1: whenever the query parameters match two or more action triggers,
the classifier picks exactly the first match in the fixed priority order
details > credits > popular > query > imdb_id (with action ≠ embed) >
tmdb_id > action=embed > action=getProviders > error; in particular
details together with query is handled as details, and imdb_id together
with action=getProviders as findByImdbId. -/
theorem classify_first_match (ps : Params) :
    (trigger ps (classify ps) = true ∧
      ∀ a : Action, trigger ps a = true → priorityOf (classify ps) ≤ priorityOf a) ∧
    classify [("details", "5"), ("query", "x")] = .details ∧
    classify [("imdb_id", "tt1"), ("action", "getProviders")] = .findByImdbId := by
  refine ⟨⟨?_, ?_⟩, by decide, by decide⟩
  · unfold classify
    split_ifs with h1 h2 h3 h4 h5 h6 h7 h8 <;> simp_all [trigger]
  · intro a ha
    unfold classify
    cases a <;>
      simp_all [trigger, priorityOf] <;>
      split_ifs <;>
      simp_all [priorityOf]

/-- Witness for C1 at a concrete parameter list that matches both the
findByImdbId and the getProviders triggers. -/
theorem classify_first_match_witness :
    trigger [("imdb_id", "tt1"), ("action", "getProviders")]
        (classify [("imdb_id", "tt1"), ("action", "getProviders")]) = true ∧
    priorityOf (classify [("imdb_id", "tt1"), ("action", "getProviders")]) ≤
      priorityOf .getProviders :=
  ⟨(classify_first_match [("imdb_id", "tt1"), ("action", "getProviders")]).1.1,
   (classify_first_match [("imdb_id", "tt1"), ("action", "getProviders")]).1.2
     .getProviders (by decide)⟩

/-- C2: for every non-OPTIONS request, an absent or empty TMDB_API_KEY
secret yields status 500 with the configuration-error body, for any query
parameters and any outbound oracle — the check precedes action
classification. -/
theorem missing_api_key_500 (req : Request) (env : Env) (fetchOracle : String → Option JVal)
    (hm : req.method ≠ "OPTIONS")
    (hk : env.TMDB_API_KEY = none ∨ env.TMDB_API_KEY = some "") :
    handleRequest req env fetchOracle =
      { status := 500, headers := jsonHeaders,
        body := some (.jobj [("error",
          .jstr "Server configuration error: TMDB_API_KEY secret not set.")]) } := by
  have hm' : (req.method == "OPTIONS") = false := by
    simp [hm]
  rcases hk with h | h <;> simp [handleRequest, hm', h, truthy]

/-- Witness for C2: a GET request for `action=getProviders` against an
environment with no key configured gets the 500 configuration error. -/
theorem missing_api_key_500_witness :
    handleRequest { method := "GET", queryParams := [("action", "getProviders")] }
        emptyEnv (fun _ => none) =
      { status := 500, headers := jsonHeaders,
        body := some (.jobj [("error",
          .jstr "Server configuration error: TMDB_API_KEY secret not set.")]) } :=
  missing_api_key_500 _ _ _ (by decide) (Or.inl rfl)

/-- C3: with the key configured, a request classified as getProviders and
a request classified as embed whose provider or imdb_id parameter is
missing (falsy) produce the identical response: status 200 carrying the
hardcoded 4-entry provider list. -/
theorem providers_and_malformed_embed (req : Request) (env : Env)
    (fetchOracle : String → Option JVal)
    (hm : req.method ≠ "OPTIONS") (hk : truthy env.TMDB_API_KEY = true) :
    (classify req.queryParams = .getProviders →
      handleRequest req env fetchOracle = providersResponse) ∧
    (classify req.queryParams = .embed →
      truthy (getParam req.queryParams "provider") = false ∨
        truthy (getParam req.queryParams "imdb_id") = false →
      handleRequest req env fetchOracle = providersResponse) ∧
    providersResponse.status = 200 ∧
    videoProviderList.length = 4 := by
  have hm' : (req.method == "OPTIONS") = false := by
    simp [hm]
  refine ⟨?_, ?_, rfl, rfl⟩
  · intro hc
    simp [handleRequest, hm', hk, hc]
  · intro hc hfalsy
    rcases hfalsy with h | h <;> simp [handleRequest, hm', hk, hc, h]

/-- Witness for C3: an embed request with no provider parameter gets the
provider-list response. -/
theorem providers_and_malformed_embed_witness :
    handleRequest { method := "GET", queryParams := [("action", "embed"), ("imdb_id", "tt1")] }
        keyOnlyEnv (fun _ => none) = providersResponse :=
  (providers_and_malformed_embed _ _ _ (by decide) (by decide)).2.1
    (by decide) (Or.inl (by decide))

/-- Whether a JSON object value has a field with the given key. -/
def objHasKey (v : JVal) (k : String) : Bool :=
  match v with
  | .jobj fields => fields.any (fun f => f.1 == k)
  | _ => false

/-- The record shape of the provider entries as they appear in the source
literal: a name string, a domain string, and a boolean under the key
`sandbox`. -/
def videoProviderShape (v : JVal) : Bool :=
  match v with
  | .jobj [(k1, .jstr _), (k2, .jstr _), (k3, .jbool _)] =>
      k1 == "name" && k2 == "domain" && k3 == "sandbox"
  | _ => false

/-- Counterexample for C4: the claimed shape names the boolean field
`sandboxed`, but no entry of the hardcoded list has a `sandboxed` key —
the source literal spells the key `sandbox`. -/
theorem videoProviderList_sandboxed_refuted :
    ¬ (videoProviderList.all (fun v => objHasKey v "sandboxed") = true) := by
  decide

/-- C4 (amended): every entry of the hardcoded video provider list is a
record of shape name: string, domain: string, sandbox: boolean (the key
is `sandbox`, not `sandboxed`), and the list is a fixed constant with
exactly four entries. -/
theorem videoProviderList_shape :
    videoProviderList.length = 4 ∧
    videoProviderList.all videoProviderShape = true := by
  decide

/-- C5: with no base-URL overrides, generateEmbedUrl on vidsrc.cc with
type movie yields exactly https://vidsrc.cc/v2/embed/movie/tt123, the same
call with type tv yields a string ending in tv/tt123, and vidfast.pro with
type movie yields a string ending in movie/tt123?autoPlay=true. -/
theorem generateEmbedUrl_examples :
    generateEmbedUrl "vidsrc.cc" "tt123" "movie" emptyEnv =
      some "https://vidsrc.cc/v2/embed/movie/tt123" ∧
    (∃ pre : String,
      generateEmbedUrl "vidsrc.cc" "tt123" "tv" emptyEnv = some (pre ++ "tv/tt123")) ∧
    (∃ pre : String,
      generateEmbedUrl "vidfast.pro" "tt123" "movie" emptyEnv =
        some (pre ++ "movie/tt123?autoPlay=true")) := by
  refine ⟨by decide, ⟨"https://vidsrc.cc/v2/embed/", by decide⟩, ⟨"https://vidfast.pro/", ?_⟩⟩
  decide

/-- A nonempty string wrapped in some is truthy. -/
theorem truthy_some_of_ne (s : String) (h : s ≠ "") : truthy (some s) = true := by
  simp [truthy, h]

/-- Counterexample for C6: the empty string is a provider value outside
the four known domains (generateEmbedUrl does return null on it), yet an
embed request supplying provider with the empty value together with an
imdb_id is answered 200 (the provider-list fallthrough), not 400; likewise
an unknown nonempty provider with an empty imdb_id value gets 200. -/
theorem embed_unknown_provider_refuted :
    generateEmbedUrl "" "tt1" "movie" keyOnlyEnv = none ∧
    hasParam [("action", "embed"), ("provider", ""), ("imdb_id", "tt1")] "provider" = true ∧
    classify [("action", "embed"), ("provider", ""), ("imdb_id", "tt1")] = .embed ∧
    ¬ ((handleRequest
        { method := "GET", queryParams := [("action", "embed"), ("provider", ""), ("imdb_id", "tt1")] }
        keyOnlyEnv (fun _ => none)).status = 400) ∧
    (handleRequest
        { method := "GET", queryParams := [("action", "embed"), ("provider", ""), ("imdb_id", "tt1")] }
        keyOnlyEnv (fun _ => none)).status = 200 ∧
    ¬ ((handleRequest
        { method := "GET",
          queryParams := [("action", "embed"), ("provider", "unknown.domain"), ("imdb_id", "")] }
        keyOnlyEnv (fun _ => none)).status = 400) := by
  refine ⟨by decide, by decide, by decide, by decide, by decide, by decide⟩

/-- C6 (amended): every provider string outside the four known domains
makes generateEmbedUrl return null for any imdb id, type and environment;
and an embed-classified request supplying such a provider with a nonempty
value together with a nonempty imdb_id is answered 400 with the
invalid-provider error body. -/
theorem unknown_provider_embed_400 (p : String)
    (hp : ¬ (p = "vidsrc.cc" ∨ p = "vidrock.net" ∨ p = "vidsrc.me" ∨ p = "vidfast.pro")) :
    (∀ (imdbId type : String) (env : Env), generateEmbedUrl p imdbId type env = none) ∧
    (∀ (req : Request) (env : Env) (fetchOracle : String → Option JVal) (i : String),
      req.method ≠ "OPTIONS" → truthy env.TMDB_API_KEY = true →
      classify req.queryParams = .embed →
      getParam req.queryParams "provider" = some p → p ≠ "" →
      getParam req.queryParams "imdb_id" = some i → i ≠ "" →
      handleRequest req env fetchOracle =
        { status := 400, headers := jsonHeaders,
          body := some (.jobj [("error",
            .jstr "Invalid provider or unable to generate embed URL.")]) }) := by
  push_neg at hp
  obtain ⟨h1, h2, h3, h4⟩ := hp
  have hgen : ∀ (imdbId type : String) (env : Env), generateEmbedUrl p imdbId type env = none := by
    intro imdbId type env
    simp [generateEmbedUrl, providerConfigs, h1, h2, h3, h4]
  refine ⟨hgen, ?_⟩
  intro req env fetchOracle i hm hk hc hprov hpne himdb hine
  have hm' : (req.method == "OPTIONS") = false := by
    simp [hm]
  simp [handleRequest, hm', hk, hc, hprov, himdb,
    truthy_some_of_ne p hpne, truthy_some_of_ne i hine, hgen]

/-- Witness for C6 at provider unknown.domain with imdb_id tt1. -/
theorem unknown_provider_embed_400_witness :
    generateEmbedUrl "unknown.domain" "tt1" "movie" keyOnlyEnv = none ∧
    handleRequest
        { method := "GET",
          queryParams := [("action", "embed"), ("provider", "unknown.domain"), ("imdb_id", "tt1")] }
        keyOnlyEnv (fun _ => none) =
      { status := 400, headers := jsonHeaders,
        body := some (.jobj [("error",
          .jstr "Invalid provider or unable to generate embed URL.")]) } :=
  ⟨(unknown_provider_embed_400 "unknown.domain" (by decide)).1 "tt1" "movie" keyOnlyEnv,
   (unknown_provider_embed_400 "unknown.domain" (by decide)).2 _ _ _ "tt1"
     (by decide) (by decide) (by decide) (by decide) (by decide) (by decide) (by decide)⟩

/-- Every outbound case of the switch sets a URL beginning with the
literal TMDB base, hence never the empty string. -/
theorem buildTmdbApiUrl_ne_empty (a : Action) (ps : Params) (apiKey : String)
    (ha : isOutboundAction a = true) :
    buildTmdbApiUrl a ps apiKey ≠ "" := by
  cases a <;> simp_all [isOutboundAction] <;>
    · unfold buildTmdbApiUrl
      repeat' apply append_ne_empty_left
      decide

/-- C7: whenever a request is classified as one of the outbound-call
actions and the single outbound GET fails (the oracle returns none,
covering network errors and JSON parse failures), the handler returns
status 502 with the upstream-failure body; the handler is a total
function, so no exception escapes it. -/
theorem upstream_failure_502 (req : Request) (env : Env) (fetchOracle : String → Option JVal)
    (hm : req.method ≠ "OPTIONS") (hk : truthy env.TMDB_API_KEY = true)
    (ha : isOutboundAction (classify req.queryParams) = true)
    (hf : fetchOracle (buildTmdbApiUrl (classify req.queryParams) req.queryParams
      (env.TMDB_API_KEY.getD "")) = none) :
    handleRequest req env fetchOracle = upstreamFailureResponse := by
  have hm' : (req.method == "OPTIONS") = false := by
    simp [hm]
  have hne := buildTmdbApiUrl_ne_empty (classify req.queryParams) req.queryParams
    (env.TMDB_API_KEY.getD "") ha
  cases hca : classify req.queryParams <;>
    rw [hca] at ha hf hne <;>
    simp_all [handleRequest, hm', hk, hca, isOutboundAction, beq_iff_eq]

/-- Witness for C7: a popular request whose outbound fetch fails is
answered 502. -/
theorem upstream_failure_502_witness :
    handleRequest { method := "GET", queryParams := [("popular", "1")] }
        keyOnlyEnv (fun _ => none) = upstreamFailureResponse :=
  upstream_failure_502 _ _ _ (by decide) (by decide) (by decide) rfl

/-- C9: for every request classified as an outbound action, the computed
tmdbApiUrl is nonempty (so the internal throw guarding an unset URL is
unreachable), and any 502 answered on this path can only come from the
outbound fetch failing. -/
theorem tmdb_api_url_always_set (req : Request) (env : Env)
    (fetchOracle : String → Option JVal) (apiKey : String)
    (ha : isOutboundAction (classify req.queryParams) = true) :
    buildTmdbApiUrl (classify req.queryParams) req.queryParams apiKey ≠ "" ∧
    (req.method ≠ "OPTIONS" → truthy env.TMDB_API_KEY = true →
      (handleRequest req env fetchOracle).status = 502 →
      fetchOracle (buildTmdbApiUrl (classify req.queryParams) req.queryParams
        (env.TMDB_API_KEY.getD "")) = none) := by
  refine ⟨buildTmdbApiUrl_ne_empty _ _ _ ha, ?_⟩
  intro hm hk h502
  have hm' : (req.method == "OPTIONS") = false := by
    simp [hm]
  have hne := buildTmdbApiUrl_ne_empty (classify req.queryParams) req.queryParams
    (env.TMDB_API_KEY.getD "") ha
  cases hfo : fetchOracle (buildTmdbApiUrl (classify req.queryParams) req.queryParams
      (env.TMDB_API_KEY.getD "")) with
  | none => rfl
  | some d =>
      exfalso
      cases hca : classify req.queryParams <;>
        rw [hca] at ha hfo hne <;>
        simp_all [handleRequest, hm', hk, hca, isOutboundAction, beq_iff_eq]

/-- Witness for C9: a details request has a nonempty outbound URL, and its
502 on a failing oracle implies the oracle really failed. -/
theorem tmdb_api_url_always_set_witness :
    buildTmdbApiUrl (classify [("details", "7")]) [("details", "7")] "k" ≠ "" :=
  (tmdb_api_url_always_set { method := "GET", queryParams := [("details", "7")] }
    keyOnlyEnv (fun _ => none) "k" (by decide)).1

/-- Counterexample for C8: the page parameter can be present with the
empty value, and then the built URL uses the default page 1, not the
parameter value; likewise a present-but-empty media_type falls back to
movie. This refutes the claim that presence alone selects the parameter
value. -/
theorem popular_empty_param_refuted :
    getParam [("popular", "1"), ("page", "")] "page" = some "" ∧
    buildTmdbApiUrl .popular [("popular", "1"), ("page", "")] "k" =
      "https://api.themoviedb.org/3/movie/popular?api_key=k&language=en-US&page=1" ∧
    ¬ (buildTmdbApiUrl .popular [("popular", "1"), ("page", "")] "k" =
      "https://api.themoviedb.org/3/movie/popular?api_key=k&language=en-US&page=") ∧
    getParam [("popular", "1"), ("media_type", "")] "media_type" = some "" ∧
    buildTmdbApiUrl .popular [("popular", "1"), ("media_type", "")] "k" =
      "https://api.themoviedb.org/3/movie/popular?api_key=k&language=en-US&page=1" ∧
    ¬ (buildTmdbApiUrl .popular [("popular", "1"), ("media_type", "")] "k" =
      "https://api.themoviedb.org/3//popular?api_key=k&language=en-US&page=1") := by
  refine ⟨by decide, by decide, by decide, by decide, by decide, by decide⟩

/-- Case analysis of the JavaScript fallback x || d on an optional
string: either the value is present and nonempty and is taken, or it is
absent or empty and the default is taken. -/
theorem orDefault_eq (o : Option String) (d : String) :
    (∃ s, o = some s ∧ s ≠ "" ∧ orDefault o d = s) ∨
    ((o = none ∨ o = some "") ∧ orDefault o d = d) := by
  cases o with
  | none => exact Or.inr ⟨Or.inl rfl, rfl⟩
  | some s =>
      by_cases h : s = ""
      · subst h
        exact Or.inr ⟨Or.inr rfl, by simp [orDefault]⟩
      · exact Or.inl ⟨s, rfl, h, by simp [orDefault, h]⟩

/-- C8 (amended): for every request on the popular branch, the outbound
URL is built from a media-type segment equal to the media_type parameter
when it is present and nonempty and movie otherwise, and a page value
equal to the page parameter when it is present and nonempty and 1
otherwise — each parameter resolved independently; the branch reads only
those two parameters, so the type parameter (and the mediaType inference
used by the other branches) has no effect on it. -/
theorem popular_url_components (ps : Params) (apiKey : String) :
    (∃ mt pg : String,
      buildTmdbApiUrl .popular ps apiKey =
        "https://api.themoviedb.org/3/" ++ mt ++ "/popular?api_key=" ++ apiKey ++
          "&language=en-US&page=" ++ pg ∧
      ((getParam ps "media_type" = some mt ∧ mt ≠ "") ∨
        ((getParam ps "media_type" = none ∨ getParam ps "media_type" = some "") ∧
          mt = "movie")) ∧
      ((getParam ps "page" = some pg ∧ pg ≠ "") ∨
        ((getParam ps "page" = none ∨ getParam ps "page" = some "") ∧ pg = "1"))) ∧
    (∀ (qs qs2 : Params) (k : String),
      getParam qs "media_type" = getParam qs2 "media_type" →
      getParam qs "page" = getParam qs2 "page" →
      buildTmdbApiUrl .popular qs k = buildTmdbApiUrl .popular qs2 k) := by
  constructor
  · refine ⟨popularMediaType ps, popularPage ps, rfl, ?_, ?_⟩
    · have hdef : popularMediaType ps = orDefault (getParam ps "media_type") "movie" := rfl
      rcases orDefault_eq (getParam ps "media_type") "movie" with
        ⟨s, hs, hne, hval⟩ | ⟨habs, hval⟩
      · rw [hdef, hval]
        exact Or.inl ⟨hs, hne⟩
      · rw [hdef, hval]
        exact Or.inr ⟨habs, rfl⟩
    · have hdef : popularPage ps = orDefault (getParam ps "page") "1" := rfl
      rcases orDefault_eq (getParam ps "page") "1" with
        ⟨s, hs, hne, hval⟩ | ⟨habs, hval⟩
      · rw [hdef, hval]
        exact Or.inl ⟨hs, hne⟩
      · rw [hdef, hval]
        exact Or.inr ⟨habs, rfl⟩
  · intro qs qs2 k h1 h2
    simp [buildTmdbApiUrl, popularMediaType, popularPage, orDefault, h1, h2]

/-- Witness for C8 at a mixed-case request: media_type present and
nonempty while page is absent resolves to tv and the default page 1, and
the type parameter does not change the popular URL. -/
theorem popular_url_components_witness :
    buildTmdbApiUrl .popular [("popular", "1"), ("media_type", "tv")] "k" =
      "https://api.themoviedb.org/3/" ++ "tv" ++ "/popular?api_key=" ++ "k" ++
        "&language=en-US&page=" ++ "1" ∧
    buildTmdbApiUrl .popular [("popular", "1"), ("type", "tv")] "k" =
      buildTmdbApiUrl .popular [("popular", "1")] "k" := by
  constructor
  · obtain ⟨mt, pg, heq, hmt, hpg⟩ :=
      (popular_url_components [("popular", "1"), ("media_type", "tv")] "k").1
    have hmt' : mt = "tv" := by
      rcases hmt with ⟨h, _⟩ | ⟨h, _⟩
      · have h2 : some "tv" = some mt := by
          rw [← h]
          rfl
        exact (Option.some.injEq _ _ ▸ h2).symm
      · rcases h with h | h <;> simp [getParam] at h
    have hpg' : pg = "1" := by
      rcases hpg with ⟨h, _⟩ | ⟨_, h⟩
      · simp [getParam] at h
      · exact h
    rw [hmt', hpg'] at heq
    exact heq
  · exact (popular_url_components [("popular", "1"), ("type", "tv")] "k").2
      [("popular", "1"), ("type", "tv")] [("popular", "1")] "k" (by decide) (by decide)

/-- String append is associative. -/
theorem string_append_assoc (a b c : String) : a ++ b ++ c = a ++ (b ++ c) := by
  cases a with
  | mk la =>
    cases b with
    | mk lb =>
      cases c with
      | mk lc => exact congrArg String.mk (List.append_assoc la lb lc)

/-- The resolved base URL of a known provider is never empty, because the
hardcoded defaults are nonempty and an empty override falls back to them. -/
theorem orDefault_ne_empty (o : Option String) (d : String) (hd : d ≠ "") :
    orDefault o d ≠ "" := by
  cases o with
  | none => simpa [orDefault] using hd
  | some s =>
      simp only [orDefault]
      split_ifs with h
      · exact hd
      · exact fun hs => by simp [hs] at h

/-- C10: generateEmbedUrl normalizes the media type only for vidsrc.cc
and vidrock.net — any type other than tv is rendered as the movie path
segment there — while vidsrc.me and vidfast.pro interpolate the given
type string verbatim; for type equal to movie or tv, all four providers
produce baseUrl ++ type ++ / ++ imdbId (with ?autoPlay=true appended for
vidfast.pro). -/
theorem generateEmbedUrl_type_normalization (env : Env) (imdbId : String) :
    (∀ type : String, type ≠ "tv" →
      generateEmbedUrl "vidsrc.cc" imdbId type env =
        some (orDefault env.VIDSRC_CC_URL "https://vidsrc.cc/v2/embed/" ++ "movie/" ++ imdbId) ∧
      generateEmbedUrl "vidrock.net" imdbId type env =
        some (orDefault env.VIDROCK_NET_URL "https://vidrock.net/" ++ "movie/" ++ imdbId) ∧
      generateEmbedUrl "vidsrc.me" imdbId type env =
        some (orDefault env.VIDSRC_ME_URL "https://vidsrc.me/embed/" ++ type ++ "/" ++ imdbId) ∧
      generateEmbedUrl "vidfast.pro" imdbId type env =
        some (orDefault env.VIDFAST_PRO_URL "https://vidfast.pro/" ++ type ++ "/" ++ imdbId ++
          "?autoPlay=true")) ∧
    (∀ type : String, type = "movie" ∨ type = "tv" →
      generateEmbedUrl "vidsrc.cc" imdbId type env =
        some (orDefault env.VIDSRC_CC_URL "https://vidsrc.cc/v2/embed/" ++ type ++ "/" ++ imdbId) ∧
      generateEmbedUrl "vidrock.net" imdbId type env =
        some (orDefault env.VIDROCK_NET_URL "https://vidrock.net/" ++ type ++ "/" ++ imdbId) ∧
      generateEmbedUrl "vidsrc.me" imdbId type env =
        some (orDefault env.VIDSRC_ME_URL "https://vidsrc.me/embed/" ++ type ++ "/" ++ imdbId) ∧
      generateEmbedUrl "vidfast.pro" imdbId type env =
        some (orDefault env.VIDFAST_PRO_URL "https://vidfast.pro/" ++ type ++ "/" ++ imdbId ++
          "?autoPlay=true")) := by
  have hcc : (orDefault env.VIDSRC_CC_URL "https://vidsrc.cc/v2/embed/" == "") = false := by
    simpa using orDefault_ne_empty env.VIDSRC_CC_URL "https://vidsrc.cc/v2/embed/" (by decide)
  have hrock : (orDefault env.VIDROCK_NET_URL "https://vidrock.net/" == "") = false := by
    simpa using orDefault_ne_empty env.VIDROCK_NET_URL "https://vidrock.net/" (by decide)
  have hme : (orDefault env.VIDSRC_ME_URL "https://vidsrc.me/embed/" == "") = false := by
    simpa using orDefault_ne_empty env.VIDSRC_ME_URL "https://vidsrc.me/embed/" (by decide)
  have hfast : (orDefault env.VIDFAST_PRO_URL "https://vidfast.pro/" == "") = false := by
    simpa using orDefault_ne_empty env.VIDFAST_PRO_URL "https://vidfast.pro/" (by decide)
  constructor
  · intro type ht
    have ht' : (type == "tv") = false := by
      simp [ht]
    refine ⟨?_, ?_, ?_, ?_⟩ <;>
      simp [generateEmbedUrl, providerConfigs, hcc, hrock, hme, hfast, ht']
  · intro type ht
    rcases ht with rfl | rfl <;>
      refine ⟨?_, ?_, ?_, ?_⟩ <;>
        simp [generateEmbedUrl, providerConfigs, hcc, hrock, hme, hfast,
          string_append_assoc]

/-- Witness for C10: a non-tv type string is rendered verbatim by
vidsrc.me but normalized to movie by vidsrc.cc, and type tv is kept by
vidsrc.cc. -/
theorem generateEmbedUrl_type_normalization_witness :
    generateEmbedUrl "vidsrc.me" "tt9" "anime" emptyEnv =
      some (orDefault emptyEnv.VIDSRC_ME_URL "https://vidsrc.me/embed/" ++ "anime" ++ "/" ++ "tt9") ∧
    generateEmbedUrl "vidsrc.cc" "tt9" "anime" emptyEnv =
      some (orDefault emptyEnv.VIDSRC_CC_URL "https://vidsrc.cc/v2/embed/" ++ "movie/" ++ "tt9") ∧
    generateEmbedUrl "vidsrc.cc" "tt9" "tv" emptyEnv =
      some (orDefault emptyEnv.VIDSRC_CC_URL "https://vidsrc.cc/v2/embed/" ++ "tv" ++ "/" ++ "tt9") :=
  ⟨((generateEmbedUrl_type_normalization emptyEnv "tt9").1 "anime" (by decide)).2.2.1,
   ((generateEmbedUrl_type_normalization emptyEnv "tt9").1 "anime" (by decide)).1,
   ((generateEmbedUrl_type_normalization emptyEnv "tt9").2 "tv" (Or.inr rfl)).1⟩

end MovieList
